import Mathlib

/-!
# Verification of the integrated crawler (`integrated.py`)

A shallow embedding of the crawl orchestration engine of this repository:
resource classification (`get_resource_type`), filename derivation
(`filename_for_url`), sitemap resolution (`parse_sitemap`), the size-capped
binary download (`check_file_size_ok` / `download_binary`), and the BFS
crawl loop (`crawl`), together with the entrypoint's seed selection.

Python strings are modelled as `List Char` (so that every definition is
executable and kernel-reducible); Python string methods used by the source
(`lower`, `endswith`, `split`, `strip`, `in`, `re.sub` over a
single-character class) are given direct structural definitions below.

External collaborators (the HTTP client, BeautifulSoup link parsing with
`urljoin`/`urlparse` resolution, the text extractors) are modelled as an
oracle `World`: for each URL it reports either a fetch failure
(`requests` raising, which covers both network errors and
`raise_for_status` on a non-2xx response) or the response status,
content-type header and the parsed, absolutised `<a href>` links.
Timestamps and file contents are not modelled; whether bytes were written
to a binary destination file is tracked as a boolean.

The Python `while` loop can run forever on an adversarial site, so the
loop is embedded with a fuel parameter; each unit of fuel is one loop
iteration (one dequeued target).
-/

namespace Crawler

/-- Python strings, as character lists. -/
abbrev Str := List Char

/-- Python `s.lower()` (ASCII case, as for the URLs at hand). -/
def strLower (s : Str) : Str := s.map Char.toLower

/-- Python `s.endswith(ext)`. -/
def strEndsWith (s ext : Str) : Bool := ext.isSuffixOf s

/-- Python `pat in s` (substring containment). -/
def strContains (s pat : Str) : Bool :=
  (List.range (s.length + 1)).any (fun i => pat.isPrefixOf (s.drop i))

/-- Python `s.split("#")[0]`: the prefix before the first `#`. -/
def beforeHash (s : Str) : Str := s.takeWhile (fun c => c ≠ '#')

/-- Python `s.strip("/")`: remove leading and trailing slashes. -/
def stripSlashes (s : Str) : Str :=
  ((s.dropWhile (fun c => c = '/')).reverse.dropWhile (fun c => c = '/')).reverse

/-! ## Configuration (integrated.py lines 41-51) -/

def MAX_FILE_SIZE_MB : Nat := 10

def DOC_EXTENSIONS : List Str := [".pdf".toList, ".docx".toList, ".doc".toList]

def IMG_EXTENSIONS : List Str :=
  [".png".toList, ".jpg".toList, ".jpeg".toList, ".gif".toList, ".bmp".toList,
   ".tif".toList, ".tiff".toList, ".svg".toList, ".webp".toList]

def SKIP_EXTENSIONS : List Str :=
  [".zip".toList, ".rar".toList, ".tar".toList, ".tar.gz".toList, ".7z".toList,
   ".gz".toList, ".xz".toList, ".bz2".toList, ".iso".toList,
   ".exe".toList, ".bin".toList, ".msi".toList] ++ IMG_EXTENSIONS

/-! ## URLs

`urlparse` is the Python standard library; the model works with the parsed
form directly.  `toUrlString` rebuilds the string `urlparse` would have
consumed (for component strings free of the delimiter characters), which is
what the string-based functions of the source receive. -/

structure Url where
  scheme : Str
  netloc : Str
  path : Str
  query : Str
  fragment : Str
deriving DecidableEq, Repr

def Url.toUrlString (u : Url) : Str :=
  u.scheme ++ "://".toList ++ u.netloc ++ u.path
    ++ (if u.query = [] then [] else "?".toList ++ u.query)
    ++ (if u.fragment = [] then [] else "#".toList ++ u.fragment)

/-- One character of `re.sub(r"[^A-Za-z0-9_\-\.]", "_", path)`:
the class matches single characters, so the substitution is a map. -/
def sanitizeChar (c : Char) : Char :=
  if c.isAlphanum || c = '_' || c = '-' || c = '.' then c else '_'

/-- `filename_for_url` (integrated.py lines 64-70, duplicated verbatim in
query.py lines 37-44).  `hash` is Python's built-in string hash, which is
randomized per process (`PYTHONHASHSEED`), so it is a parameter `h`: each
OS process instantiates it with some integer-valued function on strings. -/
def filename_for_url (h : Str → Int) (u : Url) : Str :=
  let path0 := stripSlashes u.path
  let path := if path0 = [] then "root".toList else path0
  let safe := path.map sanitizeChar
  if u.query = [] then safe
  else safe ++ "_q".toList ++ (toString ((h u.query).natAbs % 100000)).toList

/-! ## Resource classification (integrated.py lines 73-86) -/

/-- `get_resource_type(url, headers)`.  The `headers` dict is collapsed to
its content-type value: `none` models both a falsy headers dict and a
missing content-type key (both take the default `"html"` branch, exactly
as in the source, where a missing key reads as `""`). -/
def get_resource_type (url : Str) (contentType : Option Str) : String :=
  let lower := strLower url
  match DOC_EXTENSIONS.find? (fun ext => strEndsWith lower ext) with
  | some ext => String.mk (ext.drop 1)
  | none =>
    match contentType with
    | some ct0 =>
      let ctype := strLower ct0
      if strContains ctype "pdf".toList then "pdf"
      else if strContains ctype "word".toList
           || strContains ctype "officedocument".toList then "docx"
      else if strContains ctype "html".toList then "html"
      else "html"
    | none => "html"

/-- The crawl loop's pre-fetch skip test (integrated.py lines 203-204):
`url.lower().split("#")[0]` tested against the skip extensions. -/
def skipTest (url : Str) : Bool :=
  let lowerNoFrag := beforeHash (strLower url)
  SKIP_EXTENSIONS.any (fun ext => strEndsWith lowerNoFrag ext)

/-! ## The oracle for external effects -/

/-- One `<a href>` as BeautifulSoup + `urljoin` + `urlparse` deliver it to
the loop body (integrated.py lines 244-249): the anchor text, the
absolutised URL, and that URL's parsed scheme and netloc. -/
structure Link where
  absUrl : Str
  scheme : Str
  netloc : Str
  anchor : Str
deriving DecidableEq, Repr

/-- A successful `requests.get` of a page (status already past
`raise_for_status`, so 2xx): status code, the content-type header value
(`none` for absent), and the links its body parses to. -/
structure Fetched where
  status : Nat
  contentType : Option Str
  links : List Link
deriving DecidableEq, Repr

/-- The environment of one crawl run.

* `fetch url = none` models `requests.get` (or `raise_for_status`)
  raising a `RequestException`, i.e. a network error or non-2xx status.
* `head url` models the HEAD request of `check_file_size_ok`:
  `none` = the HEAD raised; `some cl` = it answered with `cl` as its
  (optional) `content-length` header, read as a number.
* `getBinary url` models the streaming GET of `download_binary`:
  `none` = the request or `raise_for_status` raised before the
  destination file was opened; `some true` = a complete download;
  `some false` = a failure while copying (a partial file was written).
* `persistOk` models whether `save_json` succeeds (false = e.g. disk
  full or permission denied: `json.dump`/`open` raises `OSError`).

Text extraction (`partition_html`, `pdfplumber`, `mammoth`) is treated as
an always-available external collaborator: it affects only the saved
side-files, never the records, edges, frontier or visited set. -/
structure World where
  fetch : Str → Option Fetched
  head : Str → Option (Option Nat)
  getBinary : Str → Option Bool
  persistOk : Bool

/-! ## Sitemap resolution (integrated.py lines 90-113)

The oracle maps a sitemap URL to `none` when the fetch raises, HTTP
errors (`raise_for_status`) or the XML does not parse, and otherwise to
the stripped `<url><loc>` texts and `<sitemap><loc>` texts of the
document.  The Python recursion is unbounded and, on a cyclic sitemap
tree, ends in a `RecursionError` that the deepest `except` turns into
`[]`; the fuel parameter plays the role of that recursion limit. -/

structure SitemapDoc where
  urlEntries : List Str
  nestedSitemaps : List Str
deriving DecidableEq, Repr

def parse_sitemap (o : Str → Option SitemapDoc) : Nat → Str → List Str
  | 0, _ => []
  | fuel + 1, sitemapUrl =>
    match o sitemapUrl with
    | none => []
    | some doc =>
      if doc.urlEntries ≠ [] then doc.urlEntries
      else (doc.nestedSitemaps.map (parse_sitemap o fuel)).flatten

/-- Seed selection of the entrypoint (integrated.py lines 306-313):
the sitemap is consulted only when a sitemap URL was given; an empty
result falls back to the start URL; no seeds at all exits with an error
(`none`). -/
def selectSeeds (o : Str → Option SitemapDoc) (fuel : Nat)
    (sitemapUrl startUrl : Str) : Option (List Str) :=
  let seeds := if sitemapUrl ≠ [] then parse_sitemap o fuel sitemapUrl else []
  let seeds := if seeds = [] ∧ startUrl ≠ [] then [startUrl] else seeds
  if seeds = [] then none else some seeds

/-! ## File size check and binary download (integrated.py lines 117-141) -/

/-- `check_file_size_ok` (lines 117-126): `False` only when the HEAD
answered with a content-length above the cap; a raising HEAD and a
missing content-length header both fall through to `True`. -/
def check_file_size_ok (w : World) (url : Str) : Bool :=
  match w.head url with
  | none => true
  | some none => true
  | some (some size) => !(size > MAX_FILE_SIZE_MB * 1024 * 1024)

/-- `download_binary` (lines 129-141), returning
`(ok, status, openedDest)` where `openedDest` says whether the
destination file was opened for writing (so whether any bytes may have
been written to it). -/
def download_binary (w : World) (url : Str) : Bool × String × Bool :=
  if !check_file_size_ok w url then (false, "too_large", false)
  else
    match w.getBinary url with
    | some true => (true, "downloaded", true)
    | some false => (false, "error", true)
    | none => (false, "error", false)

/-! ## The crawl loop (integrated.py lines 184-294) -/

/-- A frontier entry `(url, depth, parent, anchor)` (line 186/259). -/
structure Target where
  url : Str
  depth : Nat
  parent : Option Str
  anchor : Option Str
deriving DecidableEq, Repr

/-- An entry of `link_db` (lines 206-210 and 254-257); the
`discovered_at` timestamp is not modelled. -/
structure LinkEdge where
  parent : Option Str
  child : Str
  depth : Nat
  anchor : Option Str
  note : Option String
deriving DecidableEq, Repr

/-- An entry of `crawled_meta` (lines 218-222 plus the notes of lines
268-282); of the `saved` map only `download_status` is modelled, the
file paths and the timestamp are not. -/
structure Record where
  url : Str
  depth : Nat
  rtype : String
  parent : Option Str
  anchor : Option Str
  status : Nat
  downloadStatus : Option String
  note : Option String
deriving DecidableEq, Repr

/-- The mutable state of `crawl`, extended with the contents the two
snapshot files would have on disk (`persistedMeta`/`persistedLinks`),
so that persistence claims are statable. -/
structure CrawlState where
  queue : List Target
  visited : List Str
  linkDb : List LinkEdge
  crawledMeta : List Record
  persistedMeta : List Record
  persistedLinks : List LinkEdge
deriving DecidableEq, Repr

structure Cfg where
  startDomain : Str
  maxDepth : Nat
  followSameDomain : Bool

/-- `visited` as a set: membership test of the Python `set`. -/
def isVisited (visited : List Str) (url : Str) : Bool := visited.contains url

/-- One iteration of the link-extraction loop (lines 245-259): the two
`continue` filters (scheme, then same-domain), then the unconditional
`link_db.append` and the visited-guarded `queue.append`. -/
def processLinksStep (url : Str) (depth : Nat) (cfg : Cfg) (visited : List Str)
    (acc : List LinkEdge × List Target) (l : Link) : List LinkEdge × List Target :=
  if !(l.scheme == "http".toList || l.scheme == "https".toList) then acc
  else if cfg.followSameDomain && !(l.netloc == cfg.startDomain) then acc
  else
    let edge : LinkEdge :=
      { parent := some url, child := l.absUrl, depth := depth + 1,
        anchor := some l.anchor, note := none }
    let newTargets :=
      if isVisited visited l.absUrl then acc.2
      else acc.2 ++ [{ url := l.absUrl, depth := depth + 1,
                       parent := some url, anchor := some l.anchor : Target }]
    (acc.1 ++ [edge], newTargets)

/-- The link-extraction loop (lines 245-259): one fold over the parsed
links, threading the edges appended to `link_db` and the targets appended
to `queue`.  `visited` is the visited set at that moment (it does not
change during the loop; the current page is already in it). -/
def processLinks (url : Str) (depth : Nat) (cfg : Cfg) (visited : List Str)
    (links : List Link) : List LinkEdge × List Target :=
  links.foldl (processLinksStep url depth cfg visited) ([], [])

/-- Lines 284-286: append the finished record to `crawled_meta`, then
rewrite both snapshot files.  When `save_json` raises (`¬ persistOk`)
the record stays appended in memory, the snapshots keep their previous
contents, and the outer `except` swallows the exception. -/
def appendAndPersist (w : World) (s : CrawlState) (r : Record) : CrawlState :=
  let s' := { s with crawledMeta := s.crawledMeta ++ [r] }
  if w.persistOk then
    { s' with persistedMeta := s'.crawledMeta, persistedLinks := s'.linkDb }
  else s'

/-- The body of one `while` iteration for an already dequeued target `t`
(lines 196-292); `s.queue` is already the rest of the queue. -/
def processTarget (w : World) (cfg : Cfg) (t : Target) (s : CrawlState) :
    CrawlState :=
  if isVisited s.visited t.url || t.depth > cfg.maxDepth then s
  else
    let s := { s with visited := s.visited ++ [t.url] }
    if skipTest t.url then
      { s with linkDb := s.linkDb ++
          [{ parent := t.parent, child := t.url, depth := t.depth,
             anchor := t.anchor, note := some "skipped_non_text" }] }
    else
      match w.fetch t.url with
      | none => s
      | some f =>
        let resType := get_resource_type t.url f.contentType
        let record : Record :=
          { url := t.url, depth := t.depth, rtype := resType,
            parent := t.parent, anchor := t.anchor, status := f.status,
            downloadStatus := none, note := none }
        if resType = "html" then
          let (edges, newTargets) :=
            processLinks t.url t.depth cfg s.visited f.links
          let s := { s with linkDb := s.linkDb ++ edges,
                            queue := s.queue ++ newTargets }
          appendAndPersist w s record
        else
          let (ok, status, _) := download_binary w t.url
          let record :=
            { record with
              downloadStatus := some status,
              note := if ok && status = "downloaded" then none
                      else if status = "too_large" then some "Skipped (>10 MB)"
                      else some "Download failed" }
          if ok && status = "downloaded" && !w.persistOk then
            -- the sidecar `save_json` of line 277 raises before the
            -- record is appended at line 284
            s
          else appendAndPersist w s record

/-- The fueled `while queue:` loop (line 195). -/
def crawlLoop (w : World) (cfg : Cfg) : Nat → CrawlState → CrawlState
  | 0, s => s
  | fuel + 1, s =>
    match s.queue with
    | [] => s
    | t :: rest =>
      crawlLoop w cfg fuel (processTarget w cfg t { s with queue := rest })

/-- The initial state of `crawl seed_urls ...` (lines 185-188). -/
def initState (seeds : List Str) : CrawlState :=
  { queue := seeds.map (fun u =>
      { url := u, depth := 0, parent := none, anchor := none }),
    visited := [], linkDb := [], crawledMeta := [],
    persistedMeta := [], persistedLinks := [] }

def crawl (w : World) (cfg : Cfg) (fuel : Nat) (seeds : List Str) : CrawlState :=
  crawlLoop w cfg fuel (initState seeds)

/-! ## Spec-side definitions (for refinement comparisons)

These follow the wording of the specification, not the source, and are
compared against the source-derived definitions above. -/

/-- The filter of §4.3: keep only `http`/`https` links and, when the
same-domain filter is on, only links whose host equals the start domain. -/
def linkPass (cfg : Cfg) (l : Link) : Bool :=
  (l.scheme == "http".toList || l.scheme == "https".toList)
    && (!cfg.followSameDomain || l.netloc == cfg.startDomain)

/-- The LinkEdge a discovered link gives rise to (§3). -/
def mkEdge (url : Str) (depth : Nat) (l : Link) : LinkEdge :=
  { parent := some url, child := l.absUrl, depth := depth + 1,
    anchor := some l.anchor, note := none }

/-- The CrawlTarget an enqueued link gives rise to (§3). -/
def mkTarget (url : Str) (depth : Nat) (l : Link) : Target :=
  { url := l.absUrl, depth := depth + 1, parent := some url,
    anchor := some l.anchor }

/-- The classifier as the claim states it, keyed on the URL's *path*
(spec §4.2 decision order, applied to `path` instead of the URL). -/
def resource_decision_spec_on_path (path : Str) (contentType : Option Str) :
    String :=
  let lower := strLower path
  if SKIP_EXTENSIONS.any (fun ext => strEndsWith lower ext) then "skip"
  else if strEndsWith lower ".pdf".toList then "pdf"
  else if strEndsWith lower ".docx".toList then "docx"
  else if strEndsWith lower ".doc".toList then "doc"
  else
    match contentType with
    | some ct0 =>
      let ctype := strLower ct0
      if strContains ctype "pdf".toList then "pdf"
      else if strContains ctype "word".toList
           || strContains ctype "officedocument".toList then "docx"
      else if strContains ctype "html".toList then "html"
      else "html"
    | none => "html"

/-- The classification the crawl loop actually performs for a dequeued
URL (lines 203-216): the pre-fetch skip test first, then
`get_resource_type`. -/
def resource_decision_code (url : Str) (contentType : Option Str) : String :=
  if skipTest url then "skip" else get_resource_type url contentType

/-- The amended decision procedure: the spec's §4.2 order, but keyed on
the full lowercased URL — the skip test on the part before the first
`#`, the document-extension test on the whole lowered URL. -/
def resource_decision_spec_full_url (url : Str) (contentType : Option Str) :
    String :=
  let lower := strLower url
  if SKIP_EXTENSIONS.any (fun ext => strEndsWith (beforeHash lower) ext) then
    "skip"
  else if strEndsWith lower ".pdf".toList then "pdf"
  else if strEndsWith lower ".docx".toList then "docx"
  else if strEndsWith lower ".doc".toList then "doc"
  else
    match contentType with
    | some ct0 =>
      let ctype := strLower ct0
      if strContains ctype "pdf".toList then "pdf"
      else if strContains ctype "word".toList
           || strContains ctype "officedocument".toList then "docx"
      else if strContains ctype "html".toList then "html"
      else "html"
    | none => "html"

/-! ## Concrete environments used by counterexamples and witnesses -/

/-- A run whose only seed has a skip extension; every request fails
(none is ever issued for the seed). -/
def wSkip : World :=
  { fetch := fun _ => none, head := fun _ => none,
    getBinary := fun _ => none, persistOk := true }

def cfgPlain : Cfg :=
  { startDomain := "h".toList, maxDepth := 2, followSameDomain := true }

def seedZip : Str := "http://h/a.zip".toList

/-- The spec §8 scenario: `http://ex.com/` links to `/about` (same
domain) and to `https://other.com/x` (external). -/
def fetchedHome : Fetched :=
  { status := 200, contentType := some "text/html".toList,
    links :=
      [ { absUrl := "http://ex.com/about".toList, scheme := "http".toList,
          netloc := "ex.com".toList, anchor := "About".toList },
        { absUrl := "https://other.com/x".toList, scheme := "https".toList,
          netloc := "other.com".toList, anchor := "Ext".toList } ] }

def fetchedAbout : Fetched :=
  { status := 200, contentType := some "text/html".toList, links := [] }

def wScenario : World :=
  { fetch := fun u =>
      if u = "http://ex.com/".toList then some fetchedHome
      else if u = "http://ex.com/about".toList then some fetchedAbout
      else none,
    head := fun _ => none, getBinary := fun _ => none, persistOk := true }

def cfgScenario : Cfg :=
  { startDomain := "ex.com".toList, maxDepth := 1, followSameDomain := true }

/-- An oversized PDF: every HEAD reports 20000000 bytes. -/
def wBigPdf : World :=
  { fetch := fun u =>
      if u = "http://h/big.pdf".toList then
        some { status := 200, contentType := some "application/pdf".toList,
               links := [] }
      else none,
    head := fun _ => some (some 20000000),
    getBinary := fun _ => some true, persistOk := true }

/-- Two fetchable HTML pages with no links, but every `save_json` call
fails (e.g. the disk is full). -/
def wPersistFail : World :=
  { fetch := fun _ =>
      some { status := 200, contentType := some "text/html".toList,
             links := [] },
    head := fun _ => none, getBinary := fun _ => none, persistOk := false }

/-! ## Structural lemmas -/

theorem processLinksStep_eq (url : Str) (depth : Nat) (cfg : Cfg)
    (visited : List Str) (acc : List LinkEdge × List Target) (l : Link) :
    processLinksStep url depth cfg visited acc l =
      (acc.1 ++ (if linkPass cfg l then [mkEdge url depth l] else []),
       acc.2 ++ (if linkPass cfg l && !isVisited visited l.absUrl then
         [mkTarget url depth l] else [])) := by
  unfold processLinksStep linkPass mkEdge mkTarget
  cases hs1 : (l.scheme == "http".toList || l.scheme == "https".toList) <;>
    cases hs2 : cfg.followSameDomain <;>
    cases hs3 : (l.netloc == cfg.startDomain) <;>
    cases hs4 : isVisited visited l.absUrl <;>
    simp_all

theorem processLinks_foldl_eq (url : Str) (depth : Nat) (cfg : Cfg)
    (visited : List Str) (links : List Link)
    (acc : List LinkEdge × List Target) :
    links.foldl (processLinksStep url depth cfg visited) acc =
      (acc.1 ++ (links.filter (fun l => linkPass cfg l)).map (mkEdge url depth),
       acc.2 ++ (links.filter (fun l =>
           linkPass cfg l && !isVisited visited l.absUrl)).map
         (mkTarget url depth)) := by
  induction links generalizing acc with
  | nil => simp
  | cons l ls ih =>
    rw [List.foldl_cons, ih, processLinksStep_eq]
    cases hp : linkPass cfg l <;>
      cases hv : isVisited visited l.absUrl <;>
      simp [List.filter_cons, hp, hv, List.append_assoc]

/-- `processTarget`'s effect on the record list and the visited set:
it appends at most one record and at most one URL, a record only together
with its URL, and only for a fresh, in-depth target. -/
theorem processTarget_effect (w : World) (cfg : Cfg) (t : Target)
    (s : CrawlState) :
    ∃ metaAdd : List Record, ∃ visAdd : List Str,
      (processTarget w cfg t s).crawledMeta = s.crawledMeta ++ metaAdd ∧
      (processTarget w cfg t s).visited = s.visited ++ visAdd ∧
      (metaAdd.map Record.url).Sublist visAdd ∧
      visAdd.Sublist [t.url] ∧
      (visAdd = [] ∨ isVisited s.visited t.url = false) ∧
      ∀ r ∈ metaAdd, r.depth ≤ cfg.maxDepth ∧ r.url = t.url := by
  unfold processTarget
  by_cases hg : (isVisited s.visited t.url || decide (t.depth > cfg.maxDepth))
      = true
  · refine ⟨[], [], ?_⟩
    simp [hg]
  · simp only [Bool.or_eq_true, decide_eq_true_eq, not_or,
      Bool.not_eq_true] at hg
    obtain ⟨hnv, hnd⟩ := hg
    have hnd' : t.depth ≤ cfg.maxDepth := Nat.le_of_not_lt hnd
    simp only [hnv, Bool.false_or, decide_eq_true_eq]
    rw [if_neg hnd]
    by_cases hsk : skipTest t.url = true
    · refine ⟨[], [t.url], ?_⟩
      simp [hsk, hnv]
    · simp only [Bool.not_eq_true] at hsk
      rw [hsk]
      simp only [Bool.false_eq_true, if_false]
      cases hf : w.fetch t.url with
      | none => exact ⟨[], [t.url], by simp [hnv]⟩
      | some f =>
        dsimp only
        by_cases hh : get_resource_type t.url f.contentType = "html"
        · refine ⟨[Record.mk t.url t.depth
              (get_resource_type t.url f.contentType) t.parent t.anchor
              f.status none none], [t.url], ?_⟩
          cases hpo : w.persistOk <;>
            simp [hh, appendAndPersist, hpo, hnv, hnd']
        · rw [if_neg hh]
          by_cases hdl : ((download_binary w t.url).1
              && decide ((download_binary w t.url).2.1 = "downloaded")
              && !w.persistOk) = true
          · refine ⟨[], [t.url], ?_⟩
            rw [if_pos hdl]
            simp [hnv]
          · rw [if_neg hdl]
            refine ⟨[Record.mk t.url t.depth
                (get_resource_type t.url f.contentType) t.parent t.anchor
                f.status (some (download_binary w t.url).2.1)
                (if ((download_binary w t.url).1
                    && decide ((download_binary w t.url).2.1 = "downloaded"))
                    = true then none
                  else if (download_binary w t.url).2.1 = "too_large" then
                    some "Skipped (>10 MB)"
                  else some "Download failed")], [t.url], ?_⟩
            cases hpo : w.persistOk <;>
              simp [appendAndPersist, hpo, hnv, hnd']

/-- The run invariant behind the record/visited claims: the record URLs
form (in order) a subsequence of the visited list, the visited list is
duplicate-free, and every record's depth is within the budget. -/
def MetaInv (cfg : Cfg) (s : CrawlState) : Prop :=
  (s.crawledMeta.map Record.url).Sublist s.visited ∧ s.visited.Nodup ∧
    ∀ r ∈ s.crawledMeta, r.depth ≤ cfg.maxDepth

theorem processTarget_metaInv (w : World) (cfg : Cfg) (t : Target)
    (s : CrawlState) (h : MetaInv cfg s) :
    MetaInv cfg (processTarget w cfg t s) := by
  obtain ⟨hsub, hnd, hdep⟩ := h
  obtain ⟨metaAdd, visAdd, h1, h2, h3, h4, h5, h6⟩ :=
    processTarget_effect w cfg t s
  refine ⟨?_, ?_, ?_⟩
  · rw [h1, h2, List.map_append]
    exact List.Sublist.append hsub h3
  · rw [h2]
    rcases List.sublist_singleton.mp h4 with hv | hv
    · simp [hv, hnd]
    · subst hv
      rcases h5 with h5 | h5

      · simp at h5
      · have : t.url ∉ s.visited := by
          intro hmem
          have : isVisited s.visited t.url = true := by
            simp [isVisited, List.contains, List.elem_iff, hmem]
          simp [this] at h5
        simp [List.nodup_append, hnd, this]
  · rw [h1]
    intro r hr
    rcases List.mem_append.mp hr with hr | hr
    · exact hdep r hr
    · exact (h6 r hr).1

theorem crawlLoop_metaInv (w : World) (cfg : Cfg) (fuel : Nat)
    (s : CrawlState) (h : MetaInv cfg s) :
    MetaInv cfg (crawlLoop w cfg fuel s) := by
  induction fuel generalizing s with
  | zero => exact h
  | succ n ih =>
    rw [crawlLoop]
    cases hq : s.queue with
    | nil => exact h
    | cons t rest =>
      exact ih _ (processTarget_metaInv w cfg t _ ⟨h.1, h.2.1, h.2.2⟩)

theorem crawl_metaInv (w : World) (cfg : Cfg) (fuel : Nat)
    (seeds : List Str) : MetaInv cfg (crawl w cfg fuel seeds) :=
  crawlLoop_metaInv w cfg fuel _ ⟨by simp [initState], by simp [initState],
    by simp [initState]⟩

/-! ## Further concrete environments -/

def urlBigPdf : Str := "http://h/big.pdf".toList

def fetchedBigPdf : Fetched :=
  { status := 200, contentType := some "application/pdf".toList, links := [] }

def urlA : Str := "http://h/a".toList

def urlB : Str := "http://h/b".toList

def wNoLength : World :=
  { fetch := fun _ => none, head := fun _ => some none,
    getBinary := fun _ => some true, persistOk := true }

def urlQueryPdf : Url :=
  { scheme := "http".toList, netloc := "h".toList, path := "/p".toList,
    query := "x=.pdf".toList, fragment := [] }

def urlQueryZip : Url :=
  { scheme := "http".toList, netloc := "h".toList, path := "/a".toList,
    query := "f=.zip".toList, fragment := [] }

def hashSeedA : Str → Int := fun _ => 1

def hashSeedB : Str → Int := fun _ => 2

def urlQa : Url :=
  { scheme := "http".toList, netloc := "h".toList, path := "/p".toList,
    query := "a".toList, fragment := [] }

def urlQb : Url :=
  { scheme := "http".toList, netloc := "h".toList, path := "/p".toList,
    query := "b".toList, fragment := [] }

/-! ## Claims -/

/-- Claim C1, counterexample.  In the run whose single seed is
`http://h/a.zip` the seed is dequeued, unvisited and within depth, and is
skipped by extension: the run ends (empty frontier) with one URL in the
VisitedSet but an empty ResourceRecord list — the skip went to `link_db`
as a `skipped_non_text` note, not to the record list.  This refutes
`|ResourceRecord list| == |VisitedSet|` and refutes that extension-skipped
targets produce a record.  A second run whose seed `http://h/a` has no
skip extension but whose fetch raises also visits one URL and records
nothing: the failure is merely printed, not converted into a record
note. -/
theorem records_ne_visited_counterexample :
    (crawl wSkip cfgPlain 2 [seedZip]).queue = [] ∧
    (crawl wSkip cfgPlain 2 [seedZip]).visited.length = 1 ∧
    (crawl wSkip cfgPlain 2 [seedZip]).crawledMeta.length = 0 ∧
    (crawl wSkip cfgPlain 2 [seedZip]).linkDb =
      [{ parent := none, child := seedZip, depth := 0, anchor := none,
         note := some "skipped_non_text" }] ∧
    (crawl wSkip cfgPlain 2 [urlA]).queue = [] ∧
    (crawl wSkip cfgPlain 2 [urlA]).visited = [urlA] ∧
    (crawl wSkip cfgPlain 2 [urlA]).crawledMeta = [] ∧
    (crawl wSkip cfgPlain 2 [urlA]).linkDb = [] := by
  decide

/-- Claim C1, amended: each visited URL produces at most one
ResourceRecord (never two), and every record belongs to a visited URL —
the record URLs form, in order, a duplicate-free subsequence of the
VisitedSet, so `|ResourceRecord list| ≤ |VisitedSet|`.  Equality fails
exactly for extension-skipped targets (which get a `skipped_non_text`
link-db note instead of a record, as the counterexample shows) and for
targets whose fetch raises (network error or non-2xx), which produce no
record at all. -/
theorem records_subsequence_of_visited (w : World) (cfg : Cfg) (fuel : Nat)
    (seeds : List Str) :
    ((crawl w cfg fuel seeds).crawledMeta.map Record.url).Sublist
      (crawl w cfg fuel seeds).visited ∧
    ((crawl w cfg fuel seeds).crawledMeta.map Record.url).Nodup ∧
    (crawl w cfg fuel seeds).crawledMeta.length ≤
      (crawl w cfg fuel seeds).visited.length := by
  obtain ⟨h1, h2, _⟩ := crawl_metaInv w cfg fuel seeds
  refine ⟨h1, h1.nodup h2, ?_⟩
  have := h1.length_le
  simpa using this

/-- Claim C2, counterexample.  The spec's own scenario: `http://ex.com/`
(`maxDepth = 1`) contains a same-domain link `/about` and an external
link `https://other.com/x`.  The run produces the two expected records
and never fetches the external URL, but emits only ONE LinkEdge: the
external link is dropped by the `continue` of the same-domain filter
BEFORE `link_db.append`, so no edge records its discovery — refuting
"a LinkEdge is created unconditionally for every discovered link". -/
theorem external_edge_counterexample :
    (crawl wScenario cfgScenario 3 ["http://ex.com/".toList]).crawledMeta.length
      = 2 ∧
    (crawl wScenario cfgScenario 3 ["http://ex.com/".toList]).linkDb.length
      = 1 ∧
    (∀ e ∈ (crawl wScenario cfgScenario 3 ["http://ex.com/".toList]).linkDb,
      ¬ e.child = "https://other.com/x".toList) ∧
    ¬ "https://other.com/x".toList ∈
      (crawl wScenario cfgScenario 3 ["http://ex.com/".toList]).visited := by
  decide

/-- Claim C2, amended: for a successfully fetched HTML page, a LinkEdge is
created for exactly those discovered `<a href>` links whose resolved URL
has scheme `http`/`https` and (when the same-domain filter is enabled)
whose host equals the start domain — independently of whether the child
is already visited; the enqueue step additionally filters out
already-visited children.  Links failing the scheme or domain filter
yield neither an edge nor an enqueued target. -/
theorem edges_exactly_scope_filtered (url : Str) (depth : Nat) (cfg : Cfg)
    (visited : List Str) (links : List Link) :
    processLinks url depth cfg visited links =
      ((links.filter (fun l => linkPass cfg l)).map (mkEdge url depth),
       (links.filter (fun l => linkPass cfg l
          && !isVisited visited l.absUrl)).map (mkTarget url depth)) := by
  unfold processLinks
  rw [processLinks_foldl_eq]
  simp

/-- Claim C3: a pdf/docx/doc target whose HEAD reports a content-length
above the 10 MB cap is not downloaded: `download_binary` returns
`(False, "too_large")` without opening the destination file (and without
ever touching the download GET, so no partial download), and the target's
record carries `saved["download_status"] = "too_large"` and the note
`"Skipped (>10 MB)"`. -/
theorem too_large_no_write_record (w : World) (cfg : Cfg) (t : Target)
    (s : CrawlState) (f : Fetched) (n : Nat)
    (hv : isVisited s.visited t.url = false)
    (hd : t.depth ≤ cfg.maxDepth)
    (hsk : skipTest t.url = false)
    (hf : w.fetch t.url = some f)
    (hty : get_resource_type t.url f.contentType = "pdf" ∨
           get_resource_type t.url f.contentType = "docx" ∨
           get_resource_type t.url f.contentType = "doc")
    (hh : w.head t.url = some (some n))
    (hn : n > MAX_FILE_SIZE_MB * 1024 * 1024) :
    download_binary w t.url = (false, "too_large", false) ∧
    (∀ g, download_binary { w with getBinary := g } t.url =
      (false, "too_large", false)) ∧
    (processTarget w cfg t s).crawledMeta = s.crawledMeta ++
      [Record.mk t.url t.depth (get_resource_type t.url f.contentType)
        t.parent t.anchor f.status (some "too_large")
        (some "Skipped (>10 MB)")] := by
  have hck : check_file_size_ok w t.url = false := by
    simp [check_file_size_ok, hh, hn]
  have hdb : download_binary w t.url = (false, "too_large", false) := by
    simp [download_binary, hck]
  have hckg : ∀ g, check_file_size_ok { w with getBinary := g } t.url
      = false := by
    intro g
    simp [check_file_size_ok, hh, hn]
  refine ⟨hdb, fun g => by simp [download_binary, hckg g], ?_⟩
  have hneq : ¬ get_resource_type t.url f.contentType = "html" := by
    rcases hty with h | h | h <;> simp [h]
  have hnd : ¬ t.depth > cfg.maxDepth := Nat.not_lt.mpr hd
  unfold processTarget
  simp only [hv, Bool.false_or, decide_eq_true_eq]
  rw [if_neg hnd, hsk]
  simp only [Bool.false_eq_true, if_false]
  rw [hf]
  dsimp only
  rw [if_neg hneq]
  rw [hdb]
  cases hpo : w.persistOk <;> simp [appendAndPersist, hpo, hdb]

/-- Claim C3, witness: the oversized-PDF environment evaluated
concretely. -/
theorem too_large_no_write_record_witness :
    download_binary wBigPdf urlBigPdf = (false, "too_large", false) ∧
    (processTarget wBigPdf cfgPlain (Target.mk urlBigPdf 0 none none)
        (initState [urlBigPdf])).crawledMeta =
      [Record.mk urlBigPdf 0 "pdf" none none 200 (some "too_large")
        (some "Skipped (>10 MB)")] := by
  have h := too_large_no_write_record wBigPdf cfgPlain
    (Target.mk urlBigPdf 0 none none) (initState [urlBigPdf]) fetchedBigPdf
    20000000 (by decide) (by decide) (by decide) (by decide)
    (Or.inl (by decide)) (by decide) (by decide)
  refine ⟨h.1, ?_⟩
  rw [h.2.2]
  decide

/-- Claim C4, counterexample.  Classification is keyed on the full
lowercased URL, not on its path: `http://h/p?x=.pdf` (path `/p`, query
`x=.pdf`) is classified `pdf` by the code although the path-keyed
decision of the claim yields `html`; likewise `http://h/a?f=.zip`
(path `/a`) is skipped by the crawl loop's extension test although its
path ends in no skip extension. -/
theorem classification_ignores_path_counterexample :
    resource_decision_code urlQueryPdf.toUrlString none = "pdf" ∧
    resource_decision_spec_on_path urlQueryPdf.path none = "html" ∧
    urlQueryPdf.toUrlString = "http://h/p?x=.pdf".toList ∧
    skipTest urlQueryZip.toUrlString = true ∧
    resource_decision_code urlQueryZip.toUrlString none = "skip" ∧
    resource_decision_spec_on_path urlQueryZip.path none = "html" ∧
    urlQueryZip.toUrlString = "http://h/a?f=.zip".toList := by
  decide

/-- Claim C4, amended: classification follows the claimed decision order
— skip extensions first (note `skipped_non_text`, no fetch), then known
document extensions (taking precedence over headers), then the
content-type markers, then the `html` default — but keyed on the full
lowercased URL rather than on its path: the skip test applies to the URL
with its fragment stripped (`split("#")[0]`), the document-extension test
to the whole lowered URL, so a query string ending in a known extension
changes the result.  Stated as: the code's decision equals the spec's
four-step decision list transplanted onto the full URL. -/
theorem classification_full_url_order (url : Str) (ct : Option Str) :
    resource_decision_code url ct = resource_decision_spec_full_url url ct := by
  have e1 : String.mk ['p', 'd', 'f'] = "pdf" := by decide
  have e2 : String.mk ['d', 'o', 'c', 'x'] = "docx" := by decide
  have e3 : String.mk ['d', 'o', 'c'] = "doc" := by decide
  unfold resource_decision_code resource_decision_spec_full_url skipTest
    get_resource_type
  cases h0 : SKIP_EXTENSIONS.any
      (fun ext => strEndsWith (beforeHash (strLower url)) ext) <;>
    cases h1 : strEndsWith (strLower url) ['.', 'p', 'd', 'f'] <;>
    cases h2 : strEndsWith (strLower url) ['.', 'd', 'o', 'c', 'x'] <;>
    cases h3 : strEndsWith (strLower url) ['.', 'd', 'o', 'c'] <;>
    simp [DOC_EXTENSIONS, List.find?, h0, h1, h2, h3, e1, e2, e3]

/-- Claim C5: seeds enter the frontier at depth 0 (with no parent), every
target enqueued from a page has depth parent + 1, a dequeued target that
is already visited or beyond `maxDepth` is discarded with the state left
completely unchanged (no record, no edge, no visited mark), and no record
of any run ever has depth above `maxDepth`. -/
theorem depth_budget_and_discard (w : World) (cfg : Cfg) (t : Target)
    (s : CrawlState) (fuel : Nat) (seeds : List Str) (url : Str)
    (depth : Nat) (visited : List Str) (links : List Link)
    (hdisc : isVisited s.visited t.url = true ∨ t.depth > cfg.maxDepth) :
    (∀ t0 ∈ (initState seeds).queue, t0.depth = 0 ∧ t0.parent = none) ∧
    (∀ tgt ∈ (processLinks url depth cfg visited links).2,
      tgt.depth = depth + 1) ∧
    processTarget w cfg t s = s ∧
    (∀ r ∈ (crawl w cfg fuel seeds).crawledMeta, r.depth ≤ cfg.maxDepth) := by
  refine ⟨?_, ?_, ?_, (crawl_metaInv w cfg fuel seeds).2.2⟩
  · intro t0 ht0
    simp only [initState, List.mem_map] at ht0
    obtain ⟨u, _, rfl⟩ := ht0
    exact ⟨rfl, rfl⟩
  · intro tgt htgt
    unfold processLinks at htgt
    rw [processLinks_foldl_eq] at htgt
    simp only [List.nil_append, List.mem_map] at htgt
    obtain ⟨l, _, rfl⟩ := htgt
    rfl
  · rcases hdisc with h | h
    · unfold processTarget
      simp [h]
    · unfold processTarget
      simp [h]

/-- Claim C5, witness: a depth-5 target against `maxDepth = 2` is
discarded without any state change. -/
theorem depth_budget_and_discard_witness :
    (∀ t0 ∈ (initState [seedZip]).queue, t0.depth = 0 ∧ t0.parent = none) ∧
    (∀ tgt ∈ (processLinks seedZip 0 cfgPlain [] []).2, tgt.depth = 0 + 1) ∧
    processTarget wSkip cfgPlain (Target.mk seedZip 5 none none)
      (initState [seedZip]) = initState [seedZip] ∧
    (∀ r ∈ (crawl wSkip cfgPlain 2 [seedZip]).crawledMeta,
      r.depth ≤ cfgPlain.maxDepth) :=
  depth_budget_and_discard wSkip cfgPlain (Target.mk seedZip 5 none none)
    (initState [seedZip]) 2 [seedZip] seedZip 0 [] [] (Or.inr (by decide))

/-- Claim C6: when the sitemap fetch or parse fails, `parse_sitemap`
returns the empty list instead of raising, the entrypoint falls back to
the single start URL, and the crawl's initial frontier is that URL at
depth 0. -/
theorem sitemap_failure_fallback (o : Str → Option SitemapDoc) (fuel : Nat)
    (sm su : Str) (hfail : o sm = none) (hsu : ¬ su = []) :
    parse_sitemap o fuel sm = [] ∧
    selectSeeds o fuel sm su = some [su] ∧
    (initState [su]).queue =
      [{ url := su, depth := 0, parent := none, anchor := none }] := by
  have hp : parse_sitemap o fuel sm = [] := by
    cases fuel with
    | zero => rfl
    | succ m => simp [parse_sitemap, hfail]
  refine ⟨hp, ?_, by simp [initState]⟩
  by_cases hsm : sm = [] <;> simp [selectSeeds, hp, hsm, hsu]

/-- Claim C6, witness: a sitemap whose fetch yields HTTP 404 (the oracle
reports failure), with fallback start URL `http://h/`. -/
theorem sitemap_failure_fallback_witness :
    parse_sitemap (fun _ => none) 2 "http://h/sitemap.xml".toList = [] ∧
    selectSeeds (fun _ => none) 2 "http://h/sitemap.xml".toList
      "http://h/".toList = some ["http://h/".toList] ∧
    (initState ["http://h/".toList]).queue =
      [{ url := "http://h/".toList, depth := 0, parent := none,
         anchor := none }] :=
  sitemap_failure_fallback (fun _ => none) 2 "http://h/sitemap.xml".toList
    "http://h/".toList rfl (by decide)

/-- Claim C7, counterexample.  In the run whose only seed is skipped by
extension, the target is fully processed (frontier drained), the
in-memory link list holds its `skipped_non_text` entry, yet the persisted
link-db still has its initial (empty) contents: the skip branch
`continue`s before the `save_json` calls, so not every processed target
triggers a snapshot rewrite. -/
theorem persistence_skip_counterexample :
    (crawl wSkip cfgPlain 2 [seedZip]).queue = [] ∧
    (crawl wSkip cfgPlain 2 [seedZip]).linkDb.length = 1 ∧
    (crawl wSkip cfgPlain 2 [seedZip]).persistedLinks = [] ∧
    ¬ (crawl wSkip cfgPlain 2 [seedZip]).persistedLinks =
      (crawl wSkip cfgPlain 2 [seedZip]).linkDb := by
  decide

/-- Claim C7, amended: the snapshot rewrite happens only after targets
whose fetch succeeded (those reaching the record append of line 284), not
after extension-skipped targets or failed fetches.  After every such
successfully fetched target the persisted metadata and link-db files
equal the complete current in-memory lists (and exactly one record was
appended); a crash therefore loses the in-flight record plus any
skip-notes and failed-fetch outcomes recorded since the last successful
target. -/
theorem persistence_after_success (w : World) (cfg : Cfg) (t : Target)
    (s : CrawlState) (f : Fetched)
    (hp : w.persistOk = true)
    (hv : isVisited s.visited t.url = false)
    (hd : t.depth ≤ cfg.maxDepth)
    (hsk : skipTest t.url = false)
    (hf : w.fetch t.url = some f) :
    (processTarget w cfg t s).persistedMeta =
      (processTarget w cfg t s).crawledMeta ∧
    (processTarget w cfg t s).persistedLinks =
      (processTarget w cfg t s).linkDb ∧
    ∃ r : Record, (processTarget w cfg t s).crawledMeta =
      s.crawledMeta ++ [r] := by
  have hnd : ¬ t.depth > cfg.maxDepth := Nat.not_lt.mpr hd
  unfold processTarget
  simp only [hv, Bool.false_or, decide_eq_true_eq]
  rw [if_neg hnd, hsk]
  simp only [Bool.false_eq_true, if_false]
  rw [hf]
  dsimp only
  by_cases hh : get_resource_type t.url f.contentType = "html"
  · rw [if_pos hh]
    simp [appendAndPersist, hp]
  · rw [if_neg hh]
    have : ((download_binary w t.url).1
        && decide ((download_binary w t.url).2.1 = "downloaded")
        && !w.persistOk) = false := by
      simp [hp]
    rw [this]
    simp only [Bool.false_eq_true, if_false]
    simp [appendAndPersist, hp]

/-- Claim C7, witness: the scenario home page, persisted successfully. -/
theorem persistence_after_success_witness :
    (processTarget wScenario cfgScenario
        (Target.mk "http://ex.com/".toList 0 none none)
        (initState ["http://ex.com/".toList])).persistedMeta =
      (processTarget wScenario cfgScenario
        (Target.mk "http://ex.com/".toList 0 none none)
        (initState ["http://ex.com/".toList])).crawledMeta ∧
    (processTarget wScenario cfgScenario
        (Target.mk "http://ex.com/".toList 0 none none)
        (initState ["http://ex.com/".toList])).persistedLinks =
      (processTarget wScenario cfgScenario
        (Target.mk "http://ex.com/".toList 0 none none)
        (initState ["http://ex.com/".toList])).linkDb ∧
    ∃ r : Record, (processTarget wScenario cfgScenario
        (Target.mk "http://ex.com/".toList 0 none none)
        (initState ["http://ex.com/".toList])).crawledMeta =
      (initState ["http://ex.com/".toList]).crawledMeta ++ [r] :=
  persistence_after_success wScenario cfgScenario
    (Target.mk "http://ex.com/".toList 0 none none)
    (initState ["http://ex.com/".toList]) fetchedHome rfl (by decide)
    (by decide) (by decide) (by decide)

/-- Claim C8 (code bug).  When `save_json` raises (every write fails in
`wPersistFail`), the crawl does NOT abort: the exception is swallowed by
the blanket `except Exception` of the loop body and the next frontier
target is processed — after the first target's failed snapshot write, the
second seed is still visited and recorded in memory, while the persisted
metadata file keeps its initial contents.  The spec says persistence
failures should be fatal. -/
theorem persist_failure_crawl_continues :
    (crawl wPersistFail cfgPlain 3 [urlA, urlB]).visited = [urlA, urlB] ∧
    (crawl wPersistFail cfgPlain 3 [urlA, urlB]).crawledMeta.length = 2 ∧
    (crawl wPersistFail cfgPlain 3 [urlA, urlB]).persistedMeta = [] ∧
    (crawl wPersistFail cfgPlain 3 [urlA, urlB]).queue = [] := by
  decide

/-- Claim C9 (code bug).  The query-string suffix of `filename_for_url`
is `abs(hash(query)) % 100000` with Python's per-process randomized
string hash (the hash function is a parameter of the model): two
processes whose hash functions differ on the query — the crawl run and
the later query run — derive different tokens for the same URL, and under
one process a hash collision modulo 100000 makes two distinct query
strings share a token.  Only query-free URLs get a process-independent
token. -/
theorem filename_hash_process_dependent :
    ¬ filename_for_url hashSeedA urlQueryPdf =
      filename_for_url hashSeedB urlQueryPdf ∧
    filename_for_url hashSeedA urlQueryPdf = "p_q1".toList ∧
    filename_for_url hashSeedB urlQueryPdf = "p_q2".toList ∧
    ¬ urlQa.query = urlQb.query ∧
    urlQa.path = urlQb.path ∧
    filename_for_url hashSeedA urlQa = filename_for_url hashSeedA urlQb := by
  decide

/-- Claim C10: `check_file_size_ok` answers `True` when the HEAD response
carries no Content-Length header (distinct from the HEAD request itself
failing), so the 10 MB cap is never enforced for such servers and the
binary is downloaded in full whenever the streaming GET succeeds. -/
theorem no_content_length_size_ok (w : World) (url : Str)
    (h : w.head url = some (none : Option Nat)) :
    check_file_size_ok w url = true ∧
    ¬ (download_binary w url).2.1 = "too_large" ∧
    (w.getBinary url = some true →
      download_binary w url = (true, "downloaded", true)) := by
  have hc : check_file_size_ok w url = true := by
    simp [check_file_size_ok, h]
  refine ⟨hc, ?_, fun hg => by simp [download_binary, hc, hg]⟩
  cases hg : w.getBinary url with
  | none => simp [download_binary, hc, hg]
  | some b => cases b <;> simp [download_binary, hc, hg]

/-- Claim C10, witness: a server that reports no Content-Length; the
download proceeds in full. -/
theorem no_content_length_size_ok_witness :
    wNoLength.head urlA = some none ∧
    check_file_size_ok wNoLength urlA = true ∧
    download_binary wNoLength urlA = (true, "downloaded", true) :=
  ⟨rfl, (no_content_length_size_ok wNoLength urlA rfl).1,
   (no_content_length_size_ok wNoLength urlA rfl).2.2 rfl⟩

end Crawler
